import Mathlib

/-!
Shallow embedding of the `common` crate of gt-space (shared types and the
Python-facing sequence layer), together with proofs about the node-mapping
driven dispatch engine.  Rust machine integers are modelled as `Nat` with
explicit bounds where they matter, `f64` values are carried as their IEEE-754
bit patterns, and Rust `String`s are carried as their UTF-8 byte content.
-/

namespace common

/-- A byte, as stored in Rust byte buffers and UTF-8 strings. -/
abbrev Byte := Fin 256

/-- A Rust string, modelled by its UTF-8 byte content.  Rust string equality is
byte-for-byte equality, so this model is faithful for lookups and keys. -/
abbrev RustString := List Byte

/-- The units enumeration from `src/comm.rs` (`Unit`): every unit passed around
in communications, mainly for sensor readings. -/
inductive Unit
  | Amps
  | Psi
  | Kelvin
  | Pounds
  | Volts
  deriving DecidableEq

/-- The measurement record from `src/comm.rs` (`Measurement`).  The `f64` value
is modelled by its IEEE-754 bit pattern (a natural number below `2 ^ 64`); the
engine only stores and moves these bits, it never computes with them. -/
structure Measurement where
  value : Nat
  unit : Unit
  deriving DecidableEq

/-- The valve-state enumeration from `src/comm.rs` (`ValveState`). -/
inductive ValveState
  | Disconnected
  | Open
  | Closed
  | CommandedOpen
  | CommandedClosed
  deriving DecidableEq

/-- The channel-type enumeration from `src/comm.rs` (`ChannelType`). -/
inductive ChannelType
  | CurrentLoop
  | ValveVoltage
  | ValveCurrent
  | RailVoltage
  | RailCurrent
  | DifferentialSignal
  | Rtd
  | Tc
  deriving DecidableEq

/-- The computer enumeration from `src/comm.rs` (`Computer`). -/
inductive Computer
  | Flight
  | Ground
  deriving DecidableEq

/-- The node mapping record from `src/comm.rs` (`NodeMapping`), field for field
in declaration order.  `channel` is a `u32` (a natural number below `2 ^ 32`);
the `f64` fields are carried as IEEE-754 bit patterns below `2 ^ 64`. -/
structure NodeMapping where
  text_id : RustString
  board_id : RustString
  channel_type : ChannelType
  channel : Nat
  computer : Computer
  max : Option Nat
  min : Option Nat
  calibrated_offset : Nat
  connected_threshold : Option Nat
  powered_threshold : Option Nat
  normally_closed : Option Bool
  deriving DecidableEq

/-- The vehicle state record from `src/comm.rs` (`VehicleState`): three maps
keyed by `text_id`.  The Rust `HashMap`s are modelled as association lists;
`update_times` carries `f64` timestamps as bit patterns. -/
structure VehicleState where
  valve_states : List (RustString × ValveState)
  sensor_readings : List (RustString × Measurement)
  update_times : List (RustString × Nat)
  deriving DecidableEq

/-- The sequence record from `src/comm.rs` (`Sequence`): a named Python
script. -/
structure Sequence where
  name : RustString
  script : RustString
  deriving DecidableEq

/-- The control message sent from the flight computer to a SAM board
(`SamControlMessage` in `src/comm/sam.rs`), with the field names used at the
construction site in `src/sequence/device.rs` (`channel`, `powered`). -/
inductive SamControlMessage
  | ActuateValve (channel : Nat) (powered : Bool)
  | SetLed (channel : Nat) (turnOn : Bool)
  deriving DecidableEq

/-- The result of locking a Rust `Mutex`: either the guarded value or a
poisoned-lock failure. -/
inductive LockState (α : Type)
  | ok (value : α)
  | poisoned
  deriving DecidableEq

/-- The global statics of `src/sequence/mod.rs` that the dispatcher touches:
`MAPPINGS` (a `OnceLock` holding the lock-guarded mapping list, `none` before
`initialize`), `VEHICLE_STATE` (likewise for the vehicle state), and
`SAM_SOCKET` (whether the lazily created UDP socket exists yet). -/
structure Globals where
  mappings : Option (LockState (List NodeMapping))
  vehicle_state : Option (LockState VehicleState)
  sam_socket : Bool
  deriving DecidableEq

/-- A resolved socket address, abstracted to what the dispatcher inspects:
whether it is an IPv4 address, plus an identity. -/
structure SocketAddr where
  is_ipv4 : Bool
  addr : Nat
  deriving DecidableEq

/-- The environment of external effects `Valve::actuate` calls into:
`to_socket_addrs` is standard name resolution (`none` for a resolution error),
`serialize` is `postcard::to_allocvec` (`none` for a serialization error), and
`send_ok` tells whether `UdpSocket::send_to` succeeds. -/
structure ActuateEnv where
  to_socket_addrs : RustString → Option (List SocketAddr)
  serialize : SamControlMessage → Option (List Byte)
  send_ok : List Byte → SocketAddr → Bool

/-- The observable outcome of one `Valve::actuate` call.  Every failure arm of
the Rust function logs with `fail!` and returns normally; nothing is thrown. -/
inductive ActuateOutcome
  | notInitialized
  | lockFailed
  | unknownDevice
  | addressUnresolved
  | serializeFailed
  | sendFailed
  | sent (message : SamControlMessage) (serialized : List Byte) (address : SocketAddr)
  deriving DecidableEq

/-- The message transmitted by an actuation outcome, if any. -/
def ActuateOutcome.sentMessage : ActuateOutcome → Option SamControlMessage
  | .sent message _ _ => some message
  | _ => none

/-- The address an actuation outcome transmitted to, if any. -/
def ActuateOutcome.sentAddress : ActuateOutcome → Option SocketAddr
  | .sent _ _ address => some address
  | _ => none

/-- The powered flag carried by a control message, if it is a valve
actuation. -/
def SamControlMessage.poweredFlag : SamControlMessage → Option Bool
  | .ActuateValve _ powered => some powered
  | .SetLed _ _ => none

/-- The byte content of the literal `".local:8378"` appended to the board id
at `src/sequence/device.rs` line 111. -/
def dotLocal8378 : RustString :=
  [46, 108, 111, 99, 97, 108, 58, 56, 51, 55, 56]

/-- The address string handed to `to_socket_addrs` by `Valve::actuate`:
`format!("{}.local:8378", mapping.board_id)`. -/
def queriedAddress (mapping : NodeMapping) : RustString :=
  mapping.board_id ++ dotLocal8378

/-- The Python-exposed valve handle from `src/sequence/device.rs` (`Valve`),
holding its mapping's text id. -/
structure Valve where
  name : RustString
  deriving DecidableEq

/-- The body of `Valve::actuate` from `src/sequence/device.rs`, with `isOpen`
standing for the Rust parameter `open`.  It threads the global statics
explicitly (the only global it writes is the lazily initialized `SAM_SOCKET`)
and reports its outcome.  Branches in source order: uninitialized `MAPPINGS`,
poisoned mappings lock, socket `get_or_init`, mapping lookup by `text_id`,
`normally_closed` defaulting to `true` with a warning, message construction
with `powered: normally_closed == open`, address resolution of
`"{board_id}.local:8378"` keeping the first IPv4 result, serialization, and
the UDP send. -/
def Valve.actuate (self : Valve) (env : ActuateEnv) (g : Globals) (isOpen : Bool) :
    Globals × ActuateOutcome :=
  match g.mappings with
  | none => (g, .notInitialized)
  | some .poisoned => (g, .lockFailed)
  | some (.ok mappings) =>
    let g := { g with sam_socket := true }
    match mappings.find? (fun mapping => mapping.text_id == self.name) with
    | none => (g, .unknownDevice)
    | some mapping =>
      let normally_closed :=
        match mapping.normally_closed with
        | some nc => nc
        | none => true
      let message := SamControlMessage.ActuateValve mapping.channel (normally_closed == isOpen)
      let address :=
        (env.to_socket_addrs (queriedAddress mapping)).bind
          (fun addresses => addresses.find? SocketAddr.is_ipv4)
      match address with
      | some address =>
        match env.serialize message with
        | none => (g, .serializeFailed)
        | some serialized =>
          if env.send_ok serialized address then
            (g, .sent message serialized address)
          else
            (g, .sendFailed)
      | none => (g, .addressUnresolved)

/-- The body of `Valve::open` from `src/sequence/device.rs`. -/
def Valve.openValve (self : Valve) (env : ActuateEnv) (g : Globals) :
    Globals × ActuateOutcome :=
  self.actuate env g true

/-- The body of `Valve::close` from `src/sequence/device.rs`. -/
def Valve.close (self : Valve) (env : ActuateEnv) (g : Globals) :
    Globals × ActuateOutcome :=
  self.actuate env g false

/-- The address string the specification prescribes for an actuation:
`"{board_id}:{fixed_port}"` with the fixed port 8378, i.e. the board id
followed by the bytes of `":8378"`.  Written from the spec's words, to be
compared with `queriedAddress`, which is written from the source. -/
def specQueriedAddress (mapping : NodeMapping) : RustString :=
  mapping.board_id ++ [58, 56, 51, 55, 56]

/-- A concrete text id, the bytes of `"vlv1"`. -/
def vlv1 : RustString := [118, 108, 118, 49]

/-- A concrete board id, the bytes of `"sam-01"`. -/
def sam01 : RustString := [115, 97, 109, 45, 48, 49]

/-- A concrete valve mapping with an explicit `normally_closed = true`. -/
def mapping0 : NodeMapping :=
  { text_id := vlv1
    board_id := sam01
    channel_type := .ValveCurrent
    channel := 3
    computer := .Flight
    max := none
    min := none
    calibrated_offset := 0
    connected_threshold := none
    powered_threshold := none
    normally_closed := some true }

/-- A concrete IPv4 socket address. -/
def addr0 : SocketAddr := { is_ipv4 := true, addr := 0 }

/-- A concrete effect environment in which resolution, serialization and the
UDP send all succeed, and resolution returns one IPv4 address. -/
def env0 : ActuateEnv :=
  { to_socket_addrs := fun _ => some [addr0]
    serialize := fun _ => some [7]
    send_ok := fun _ _ => true }

/-- Concrete globals: initialized with the single mapping `mapping0`, an empty
vehicle state, and no socket yet. -/
def globals0 : Globals :=
  { mappings := some (.ok [mapping0])
    vehicle_state := some (.ok ⟨[], [], []⟩)
    sam_socket := false }

/-- C1, counterexample: actuating `vlv1` (whose mapping carries the explicit
flag `normally_closed = some true`) with desired state open transmits a
control message whose powered flag is `true`, not `false` as the claim's
truth table demands. -/
theorem c1_powered_counterexample :
    mapping0.normally_closed = some true ∧
    ((Valve.mk vlv1).actuate env0 globals0 true).2.sentMessage.bind
      SamControlMessage.poweredFlag = some true ∧
    ¬ ((Valve.mk vlv1).actuate env0 globals0 true).2.sentMessage.bind
      SamControlMessage.poweredFlag = some false := by
  refine ⟨rfl, by decide, by decide⟩

/-- C1, amended: for every actuation whose mapping carries an explicit
`normally_closed` flag, the transmitted control message is exactly
`ActuateValve` with the mapping's channel and powered flag
`normally_closed == open` — so `normally_closed = true` with desired open
gives `powered = true`, with desired closed gives `powered = false`;
`normally_closed = false` with desired open gives `powered = false`, with
desired closed gives `powered = true`. -/
theorem c1_powered_flag (env : ActuateEnv) (g : Globals) (v : Valve) (isOpen : Bool)
    (ms : List NodeMapping) (m : NodeMapping) (nc : Bool) (msg : SamControlMessage)
    (hms : g.mappings = some (.ok ms))
    (hfind : ms.find? (fun mapping => mapping.text_id == v.name) = some m)
    (hnc : m.normally_closed = some nc)
    (hsent : (v.actuate env g isOpen).2.sentMessage = some msg) :
    msg = SamControlMessage.ActuateValve m.channel (nc == isOpen) := by
  unfold Valve.actuate at hsent
  rw [hms] at hsent
  simp only [hfind, hnc] at hsent
  split at hsent
  · split at hsent
    · exact absurd hsent (by simp [ActuateOutcome.sentMessage])
    · split at hsent
      · simp only [ActuateOutcome.sentMessage, Option.some.injEq] at hsent
        exact hsent.symm
      · exact absurd hsent (by simp [ActuateOutcome.sentMessage])
  · exact absurd hsent (by simp [ActuateOutcome.sentMessage])

/-- C1, witness for the amended theorem at a concrete input. -/
theorem c1_powered_flag_witness :
    globals0.mappings = some (.ok [mapping0]) ∧
    [mapping0].find? (fun mapping => mapping.text_id == (Valve.mk vlv1).name) =
      some mapping0 ∧
    mapping0.normally_closed = some true ∧
    ((Valve.mk vlv1).actuate env0 globals0 true).2.sentMessage =
      some (SamControlMessage.ActuateValve 3 (true == true)) ∧
    SamControlMessage.ActuateValve 3 (true == true) =
      SamControlMessage.ActuateValve mapping0.channel (true == true) :=
  ⟨rfl, by decide, rfl, by decide,
    c1_powered_flag env0 globals0 (Valve.mk vlv1) true [mapping0] mapping0 true
      (SamControlMessage.ActuateValve 3 (true == true)) rfl (by decide) rfl (by decide)⟩

/-- C3, counterexample: for the concrete mapping with board id `"sam-01"`, the
address string handed to name resolution is the bytes of
`"sam-01.local:8378"`, not `"sam-01:8378"` as the claim's format
`"{board_id}:{fixed_port}"` demands. -/
theorem c3_address_counterexample :
    queriedAddress mapping0 ≠ specQueriedAddress mapping0 ∧
    queriedAddress mapping0 = mapping0.board_id ++ dotLocal8378 := by
  refine ⟨by decide, rfl⟩

/-- C3, amended: the address string handed to standard name resolution is
`"{board_id}.local:8378"` (the board id, then `".local:8378"`), and among the
resolved addresses the first IPv4 result is used: any transmitted message goes
to the first IPv4 address of the resolution result, and if no resolved
address is IPv4 the actuation fails as unresolved. -/
theorem c3_address_resolution (env : ActuateEnv) (g : Globals) (v : Valve)
    (isOpen : Bool) (ms : List NodeMapping) (m : NodeMapping)
    (addrs : List SocketAddr)
    (hms : g.mappings = some (.ok ms))
    (hfind : ms.find? (fun mapping => mapping.text_id == v.name) = some m)
    (hres : env.to_socket_addrs (queriedAddress m) = some addrs) :
    queriedAddress m = m.board_id ++ dotLocal8378 ∧
    (∀ a, (v.actuate env g isOpen).2.sentAddress = some a →
      addrs.find? SocketAddr.is_ipv4 = some a) ∧
    (addrs.find? SocketAddr.is_ipv4 = none →
      (v.actuate env g isOpen).2 = .addressUnresolved) := by
  refine ⟨rfl, ?_, ?_⟩
  · intro a ha
    unfold Valve.actuate at ha
    rw [hms] at ha
    simp only [hfind, hres, Option.some_bind] at ha
    split at ha
    · rename_i address heq
      split at ha
      · exact absurd ha (by simp [ActuateOutcome.sentAddress])
      · split at ha
        · simp only [ActuateOutcome.sentAddress, Option.some.injEq] at ha
          rw [← ha]; exact heq
        · exact absurd ha (by simp [ActuateOutcome.sentAddress])
    · exact absurd ha (by simp [ActuateOutcome.sentAddress])
  · intro hnone
    unfold Valve.actuate
    rw [hms]
    simp only [hfind, hres, Option.some_bind, hnone]

/-- C3, witness for the amended theorem at a concrete input. -/
theorem c3_address_resolution_witness :
    globals0.mappings = some (.ok [mapping0]) ∧
    [mapping0].find? (fun mapping => mapping.text_id == (Valve.mk vlv1).name) =
      some mapping0 ∧
    env0.to_socket_addrs (queriedAddress mapping0) = some [addr0] ∧
    (queriedAddress mapping0 = mapping0.board_id ++ dotLocal8378 ∧
    (∀ a, ((Valve.mk vlv1).actuate env0 globals0 true).2.sentAddress = some a →
      [addr0].find? SocketAddr.is_ipv4 = some a) ∧
    ([addr0].find? SocketAddr.is_ipv4 = none →
      ((Valve.mk vlv1).actuate env0 globals0 true).2 = .addressUnresolved)) :=
  ⟨rfl, by decide, rfl,
    c3_address_resolution env0 globals0 (Valve.mk vlv1) true [mapping0] mapping0
      [addr0] rfl (by decide) rfl⟩

/-- C4: a `Valve::actuate` call never touches the vehicle state store — on
every path (uninitialized, lock failure, unknown device, unresolvable
address, serialization failure, send failure, successful transmission) the
`VEHICLE_STATE` global, and with it `valve_states`, `sensor_readings` and
`update_times`, is exactly what it was before the call. -/
theorem c4_actuate_frame (env : ActuateEnv) (g : Globals) (v : Valve)
    (isOpen : Bool) :
    ((v.actuate env g isOpen).1).vehicle_state = g.vehicle_state := by
  unfold Valve.actuate
  rcases hm : g.mappings with _ | ls
  · rfl
  · rcases ls with ms | _
    · dsimp only
      split
      · rfl
      · split
        · split
          · rfl
          · split <;> rfl
        · rfl
    · rfl

/-- C5: when the text id resolves to no entry of the current mapping table,
the actuation reports an unknown-device failure, transmits nothing (no
message is serialized or sent), and returns normally rather than raising. -/
theorem c5_unknown_device (env : ActuateEnv) (g : Globals) (v : Valve)
    (isOpen : Bool) (ms : List NodeMapping)
    (hms : g.mappings = some (.ok ms))
    (hfind : ms.find? (fun mapping => mapping.text_id == v.name) = none) :
    (v.actuate env g isOpen).2 = .unknownDevice ∧
    (v.actuate env g isOpen).2.sentMessage = none := by
  unfold Valve.actuate
  rw [hms]
  simp [hfind, ActuateOutcome.sentMessage]

/-- C5, witness at a concrete input: the name `"x"` is absent from the
one-entry table. -/
theorem c5_unknown_device_witness :
    globals0.mappings = some (.ok [mapping0]) ∧
    [mapping0].find? (fun mapping => mapping.text_id == (Valve.mk [120]).name) =
      none ∧
    ((Valve.mk [120]).actuate env0 globals0 true).2 = .unknownDevice ∧
    ((Valve.mk [120]).actuate env0 globals0 true).2.sentMessage = none :=
  ⟨rfl, by decide,
    c5_unknown_device env0 globals0 (Valve.mk [120]) true [mapping0] rfl (by decide)⟩

/-- The Python-exposed sensor handle from `src/sequence/device.rs` (`Sensor`),
holding the text identifier it was created with. -/
structure Sensor where
  name : RustString
  deriving DecidableEq

/-- The body of `Sensor::read` from `src/sequence/device.rs`.  The Rust method
starts from `measurement = None`, fills it from `sensor_readings` only when the
`VEHICLE_STATE` global is initialized and its lock is healthy (both failure
paths merely log), and converts `None` to Python's `None`.  Its return type has
no error channel at all — the model returns the `Option` directly. -/
def Sensor.read (self : Sensor) (vehicle_state : Option (LockState VehicleState)) :
    Option Measurement :=
  match vehicle_state with
  | none => none
  | some .poisoned => none
  | some (.ok vs) => vs.sensor_readings.lookup self.name

/-- One Python statement issued by `run` in `src/sequence/mod.rs`: the initial
`from sequences import *`, one handle definition per mapping, or the sequence
script itself. -/
inductive PyCmd
  | importAll
  | define (text_id : RustString) (kind : Bool)
  | script (source : RustString)
  deriving DecidableEq

/-- Whether a channel type is bound as a valve handle: exactly
`ChannelType::ValveCurrent` is, every other channel type gets a sensor handle
(the `match` at `src/sequence/mod.rs` lines 112-115). -/
def isValveChannel : ChannelType → Bool
  | .ValveCurrent => true
  | _ => false

/-- The handle definition `run` issues for one mapping:
`"{text_id} = Valve('{text_id}')"` for a valve-current channel and
`"{text_id} = Sensor('{text_id}')"` otherwise, abstracted to the defined name
and the kind of handle (`true` for a valve). -/
def bindCmd (mapping : NodeMapping) : PyCmd :=
  .define mapping.text_id (isValveChannel mapping.channel_type)

/-- The Python interpreter as seen by `run`: whether `py.run` succeeds on each
statement. -/
structure RunEnv where
  pyOk : PyCmd → Bool

/-- The observable outcome of one `run` call.  Every failure arm logs with
`fail!` and returns normally. -/
inductive RunOutcome
  | notInitialized
  | lockFailed
  | importFailed
  | defineFailed
  | scriptFailed
  | completed
  deriving DecidableEq

/-- The binding loop of `run` (`src/sequence/mod.rs` lines 110-121): issue one
handle definition per mapping, in table order, stopping at the first failing
`py.run`.  Returns the statements issued and whether all succeeded. -/
def defineAll (env : RunEnv) : List NodeMapping → List PyCmd × Bool
  | [] => ([], true)
  | mapping :: rest =>
    let cmd := bindCmd mapping
    if env.pyOk cmd then
      let tail := defineAll env rest
      (cmd :: tail.1, tail.2)
    else
      ([cmd], false)

/-- The body of `run` from `src/sequence/mod.rs`: check `MAPPINGS` is
initialized, lock it, import the sequences module, define one handle per
mapping, drop the lock, and run the sequence's script.  The sequence's `name`
is used only in the failure log message; there is no branch on it and no
persistence of any kind.  Returns the Python statements issued (in order) and
the outcome. -/
def run (env : RunEnv) (g : Globals) (sequence : Sequence) :
    List PyCmd × RunOutcome :=
  match g.mappings with
  | none => ([], .notInitialized)
  | some .poisoned => ([], .lockFailed)
  | some (.ok mappings) =>
    if env.pyOk .importAll then
      let defs := defineAll env mappings
      if defs.2 then
        let scriptCmd := PyCmd.script sequence.script
        (.importAll :: defs.1 ++ [scriptCmd],
          if env.pyOk scriptCmd then .completed else .scriptFailed)
      else
        (.importAll :: defs.1, .defineFailed)
    else
      ([.importAll], .importFailed)

/-- The outcome of a call to `initialize` in `src/sequence/mod.rs`: either the
`OnceLock` was set, or it was already set and the call merely warned — there
is no error return. -/
inductive InitOutcome
  | initialized
  | alreadyInitialized
  deriving DecidableEq

/-- The body of `initialize` from `src/sequence/mod.rs`: `MAPPINGS.set` on the
`OnceLock` succeeds only when it is empty; otherwise the call logs a warning
and returns, leaving the previously installed handle in place.  The handle
type is abstract (`Arc<Mutex<Vec<NodeMapping>>>` in the source); only its
identity matters. -/
def initializeLibrary {α : Type} (cell : Option α) (mappings : α) : Option α × InitOutcome :=
  match cell with
  | none => (some mappings, .initialized)
  | some prev => (some prev, .alreadyInitialized)

/-- The byte content of the sequence name `"abort"`. -/
def abortName : RustString := [97, 98, 111, 114, 116]

/-- A concrete sequence named `"abort"` with the one-byte script `"s"`. -/
def abortSeq : Sequence := { name := abortName, script := [115] }

/-- A Python interpreter on which every statement succeeds. -/
def runEnv0 : RunEnv := { pyOk := fun _ => true }

/-- C2, counterexample: `run` on a sequence named exactly `"abort"` issues the
sequence's script to the interpreter (the script statement is in the trace)
and completes the run — it executes the script rather than persisting it. -/
theorem c2_run_counterexample :
    abortSeq.name = abortName ∧
    PyCmd.script abortSeq.script ∈ (run runEnv0 globals0 abortSeq).1 ∧
    (run runEnv0 globals0 abortSeq).2 = .completed := by
  refine ⟨rfl, by decide, by decide⟩

/-- C2, amended: `run` never branches on the sequence's name — a sequence
named `"abort"` is treated exactly like one with any other name — and when
initialization, the import and all handle definitions succeed, `run` executes
the sequence's script.  `run` performs no persistence; storing an `"abort"`
sequence durably is the message recipient's responsibility, outside `run`. -/
theorem c2_abort_not_special (env : RunEnv) (g : Globals)
    (otherName script : RustString) (ms : List NodeMapping)
    (hms : g.mappings = some (.ok ms))
    (himp : env.pyOk .importAll = true)
    (hdefs : (defineAll env ms).2 = true) :
    run env g { name := abortName, script := script } =
      run env g { name := otherName, script := script } ∧
    PyCmd.script script ∈ (run env g { name := abortName, script := script }).1 := by
  constructor
  · rfl
  · unfold run
    rw [hms]
    simp [himp, hdefs]

/-- C2, witness for the amended theorem at a concrete input. -/
theorem c2_abort_not_special_witness :
    globals0.mappings = some (.ok [mapping0]) ∧
    runEnv0.pyOk .importAll = true ∧
    (defineAll runEnv0 [mapping0]).2 = true ∧
    (run runEnv0 globals0 { name := abortName, script := [115] } =
      run runEnv0 globals0 { name := [120], script := [115] } ∧
    PyCmd.script [115] ∈
      (run runEnv0 globals0 { name := abortName, script := [115] }).1) :=
  ⟨rfl, rfl, by decide,
    c2_abort_not_special runEnv0 globals0 [120] [115] [mapping0] rfl rfl (by decide)⟩

/-- C8: a sensor read for a text id with no stored reading — in particular on
a completely empty store, but also when the store is uninitialized or its
lock is poisoned — returns the no-value sentinel `none`; the method's return
type has no error channel, so no error can be raised or returned. -/
theorem c8_sensor_read_missing (self : Sensor)
    (vehicle_state : Option (LockState VehicleState))
    (h : ∀ vs, vehicle_state = some (.ok vs) →
      vs.sensor_readings.lookup self.name = none) :
    self.read vehicle_state = none := by
  unfold Sensor.read
  match hv : vehicle_state with
  | none => rfl
  | some .poisoned => rfl
  | some (.ok vs) => exact h vs rfl

/-- C8, witness: reading the unseen name `"u"` from an initialized, healthy,
completely empty store returns `none`. -/
theorem c8_sensor_read_missing_witness :
    (∀ vs : VehicleState,
      (some (LockState.ok (⟨[], [], []⟩ : VehicleState)) = some (.ok vs)) →
      vs.sensor_readings.lookup (Sensor.mk [117]).name = none) ∧
    (Sensor.mk [117]).read (some (.ok ⟨[], [], []⟩)) = none :=
  ⟨fun vs hvs => by injection hvs with h1; injection h1 with h2; rw [← h2]; rfl,
    c8_sensor_read_missing (Sensor.mk [117]) (some (.ok ⟨[], [], []⟩))
      (fun vs hvs => by injection hvs with h1; injection h1 with h2; rw [← h2]; rfl)⟩

/-- C9: when every handle definition succeeds, the binding phase issues
exactly one definition per mapping-table entry, in table order, each binding
the entry's `text_id`; the handle is a valve handle exactly when the entry's
channel type is `ValveCurrent`, and a sensor handle for every other channel
type. -/
theorem c9_binding (env : RunEnv) (ms : List NodeMapping)
    (hok : ∀ m ∈ ms, env.pyOk (bindCmd m) = true) :
    (defineAll env ms).1 =
      ms.map (fun m => PyCmd.define m.text_id (isValveChannel m.channel_type)) ∧
    (defineAll env ms).2 = true ∧
    ∀ ct, isValveChannel ct = true ↔ ct = ChannelType.ValveCurrent := by
  refine ⟨?_, ?_, ?_⟩
  · induction ms with
    | nil => rfl
    | cons m rest ih =>
      have hm := hok m (List.mem_cons_self m rest)
      have hrest := ih (fun x hx => hok x (List.mem_cons_of_mem m hx))
      unfold bindCmd at hm
      simp [defineAll, bindCmd, hm, hrest]
  · induction ms with
    | nil => rfl
    | cons m rest ih =>
      have hm := hok m (List.mem_cons_self m rest)
      have hrest := ih (fun x hx => hok x (List.mem_cons_of_mem m hx))
      unfold bindCmd at hm
      simp [defineAll, bindCmd, hm, hrest]
  · intro ct
    cases ct <;> simp [isValveChannel]

/-- C9, witness at a concrete one-entry table. -/
theorem c9_binding_witness :
    (∀ m ∈ [mapping0], runEnv0.pyOk (bindCmd m) = true) ∧
    ((defineAll runEnv0 [mapping0]).1 =
      [mapping0].map (fun m => PyCmd.define m.text_id (isValveChannel m.channel_type)) ∧
    (defineAll runEnv0 [mapping0]).2 = true ∧
    ∀ ct, isValveChannel ct = true ↔ ct = ChannelType.ValveCurrent) :=
  ⟨by decide, c9_binding runEnv0 [mapping0] (by decide)⟩

/-- C10: initialization is first-write-wins.  A first call installs its
mapping-table handle; every later call returns normally (with a warning, not
an error — the outcome type has no error case), leaves the first handle
installed, and does not install its own argument, for arbitrary handles of
any type. -/
theorem c10_first_write_wins {α : Type} (m1 m2 : α) :
    (initializeLibrary none m1).1 = some m1 ∧
    initializeLibrary (initializeLibrary none m1).1 m2 =
      (some m1, InitOutcome.alreadyInitialized) := by
  exact ⟨rfl, rfl⟩

/-- A Python exception carried out of a condition callback, abstracted to an
identity. -/
structure PyErr where
  code : Nat
  deriving DecidableEq

/-- Rust `std::time::Duration::MAX` in nanoseconds: `u64::MAX` seconds plus
`999_999_999` nanoseconds.  `wait_until` substitutes this for an omitted
timeout (`timeout.map_or(Duration::MAX, Into::into)`). -/
def durationMAX : Nat := (2 ^ 64 - 1) * 1000000000 + 999999999

/-- The default poll interval of `wait_until`,
`Duration::from_millis(10)` in nanoseconds. -/
def defaultPollInterval : Nat := 10000000

/-- The timeout `wait_until` actually uses, in nanoseconds:
the given one, or `Duration::MAX` when omitted. -/
def effectiveTimeout (timeout : Option Nat) : Nat :=
  timeout.getD durationMAX

/-- The poll interval `wait_until` actually uses, in nanoseconds: the given
one, or 10 ms when omitted. -/
def effectivePollInterval (poll_interval : Option Nat) : Nat :=
  poll_interval.getD defaultPollInterval

/-- The polling loop of `wait_until` (`src/sequence/func.rs` lines 20-24) over
an idealized monotonic clock measured in nanoseconds: evaluate the condition
(an error propagates out through `?`, a `true` stops the loop), then compare
the clock against `end_time`; each sleep advances the clock by exactly the
poll interval.  The extra fuel argument bounds the number of iterations the
model unrolls; `none` means the fuel ran out before the loop exited, and the
theorems below show the exit is always reached with enough fuel. -/
def waitLoop (condition : Nat → Except PyErr Bool) (endTime interval : Nat) :
    Nat → Nat → Option (Except PyErr Nat)
  | _, 0 => none
  | now, fuel + 1 =>
    match condition now with
    | .error e => some (.error e)
    | .ok true => some (.ok now)
    | .ok false =>
      if now < endTime then
        waitLoop condition endTime interval (now + interval) fuel
      else
        some (.ok now)

/-- The largest clock value representable by a Rust `Instant`, in
nanoseconds: the standard library stores a monotonic `Timespec` of `i64`
seconds plus sub-second nanoseconds, so the maximum is `i64::MAX` seconds
plus `999_999_999` nanoseconds. -/
def instantMAX : Nat := (2 ^ 63 - 1) * 1000000000 + 999999999

/-- The observable result of one `wait_until` call.  The computation
`end_time = Instant::now() + timeout` at `src/sequence/func.rs` line 20
panics when the sum overflows the `Instant` representation (std's
"overflow when adding duration to instant"); otherwise the call polls and
either returns `Ok(())` — `returned` carries the clock value at which
control comes back to the script — or propagates an exception raised by the
condition callback. -/
inductive WaitResult
  | panicked
  | raised (e : PyErr)
  | returned (clock : Nat)
  deriving DecidableEq

/-- The body of `wait_until` from `src/sequence/func.rs`: fill in the
defaulted timeout and poll interval, compute
`end_time = Instant::now() + timeout` — a panic when the sum exceeds what an
`Instant` can represent — then poll.  `now` is the monotonic clock value at
the call. -/
def wait_until (condition : Nat → Except PyErr Bool)
    (timeout poll_interval : Option Nat) (now fuel : Nat) :
    Option WaitResult :=
  if instantMAX < now + effectiveTimeout timeout then some .panicked
  else
    match waitLoop condition (now + effectiveTimeout timeout)
        (effectivePollInterval poll_interval) now fuel with
    | none => none
    | some (.error e) => some (.raised e)
    | some (.ok T) => some (.returned T)

/-- With a never-true condition and a positive poll interval, the poll loop
exits on its own at the first clock value at or past `end_time`, returning
`ok`, provided the fuel covers the iterations up to `end_time`. -/
theorem waitLoop_never_true (condition : Nat → Except PyErr Bool)
    (hc : ∀ t, condition t = .ok false) (endTime interval : Nat)
    (_hi : 0 < interval) :
    ∀ fuel now, endTime ≤ now + fuel * interval → now < endTime + interval →
    ∃ T, waitLoop condition endTime interval now (fuel + 1) = some (.ok T) ∧
      endTime ≤ T ∧ T < endTime + interval := by
  intro fuel
  induction fuel with
  | zero =>
    intro now hn hb
    refine ⟨now, ?_, by omega, hb⟩
    simp only [waitLoop, hc now]
    rw [if_neg (by omega)]
  | succ f ih =>
    intro now hn hb
    by_cases h : now < endTime
    · rw [Nat.succ_mul] at hn
      obtain ⟨T, hT, h1, h2⟩ := ih (now + interval) (by omega) (by omega)
      refine ⟨T, ?_, h1, h2⟩
      simp only [waitLoop, hc now]
      rw [if_pos h]
      exact hT
    · refine ⟨now, ?_, by omega, hb⟩
      simp only [waitLoop, hc now]
      rw [if_neg h]

/-- C7, counterexample: with the timeout omitted, the effective timeout is
`Duration::MAX`, and adding it to the current instant overflows for every
clock value — concretely, at clock 0 with a never-true condition the call
panics immediately instead of polling, so it neither polls without bound nor
returns successfully; the explicit finite, strictly positive timeout
`Duration::MAX` panics the same way, refuting the claim's universal over all
finite positive timeouts as well. -/
theorem c7_wait_until_counterexample :
    effectiveTimeout none = durationMAX ∧
    wait_until (fun _ => .ok false) none none 0 12 = some .panicked ∧
    0 < durationMAX ∧
    wait_until (fun _ => .ok false) (some durationMAX) none 0 12 =
      some .panicked ∧
    ∀ T : Nat, (some WaitResult.panicked : Option WaitResult) ≠
      some (.returned T) := by
  refine ⟨rfl, by decide, by decide, by decide, ?_⟩
  intro T h
  exact WaitResult.noConfusion (Option.some.inj h)

/-- C7, amended: for a condition that never returns true and every strictly
positive timeout whose end time `now + timeout` is representable as an
`Instant`, `wait_until` returns successfully (never an error) at a clock
value in `[now + timeout, now + timeout + poll_interval)` — it stops polling
once the timeout elapses, not earlier and not indefinitely — with enough
fuel to cover the loop; an omitted poll interval defaults to 10 ms; an
omitted timeout stands for `Duration::MAX`, whose addition to the current
instant always overflows, so such a call panics immediately instead of
polling without bound. -/
theorem c7_wait_until_timeout (condition : Nat → Except PyErr Bool)
    (timeout : Nat) (poll_interval : Option Nat) (now fuel : Nat)
    (hc : ∀ t, condition t = .ok false)
    (ht : 0 < timeout)
    (hrep : now + timeout ≤ instantMAX)
    (hp : 0 < effectivePollInterval poll_interval)
    (hfuel : timeout ≤ fuel * effectivePollInterval poll_interval) :
    (∃ T, wait_until condition (some timeout) poll_interval now (fuel + 1) =
        some (.returned T) ∧
      now + timeout ≤ T ∧
      T < now + timeout + effectivePollInterval poll_interval) ∧
    effectivePollInterval none = 10000000 ∧
    (∀ start fuel2, wait_until condition none poll_interval start fuel2 =
      some .panicked) := by
  refine ⟨?_, rfl, ?_⟩
  · obtain ⟨T, hT, h1, h2⟩ :=
      waitLoop_never_true condition hc (now + timeout)
        (effectivePollInterval poll_interval) hp fuel now (by omega) (by omega)
    refine ⟨T, ?_, h1, h2⟩
    unfold wait_until
    rw [show effectiveTimeout (some timeout) = timeout from rfl]
    rw [if_neg (by omega)]
    rw [hT]
  · intro start fuel2
    have hbig : instantMAX < durationMAX := by norm_num [durationMAX, instantMAX]
    unfold wait_until
    rw [show effectiveTimeout none = durationMAX from rfl]
    rw [if_pos (by omega)]

/-- C7, witness for the amended theorem: a 100 ms timeout with the default
10 ms poll interval and a never-true condition, starting at clock 0. -/
theorem c7_wait_until_timeout_witness :
    (∀ t : Nat, (fun _ : Nat => (Except.ok false : Except PyErr Bool)) t = .ok false) ∧
    0 < (100000000 : Nat) ∧
    (0 : Nat) + 100000000 ≤ instantMAX ∧
    0 < effectivePollInterval none ∧
    (100000000 : Nat) ≤ 10 * effectivePollInterval none ∧
    ((∃ T, wait_until (fun _ => .ok false) (some 100000000) none 0 (10 + 1) =
        some (.returned T) ∧
      0 + 100000000 ≤ T ∧ T < 0 + 100000000 + effectivePollInterval none) ∧
    effectivePollInterval none = 10000000 ∧
    (∀ start fuel2, wait_until (fun _ => .ok false) none none start fuel2 =
      some .panicked)) :=
  ⟨fun _ => rfl, by norm_num, by norm_num [instantMAX],
    by norm_num [effectivePollInterval, defaultPollInterval],
    by norm_num [effectivePollInterval, defaultPollInterval],
    c7_wait_until_timeout (fun _ => .ok false) 100000000 none 0 10 (fun _ => rfl)
      (by norm_num) (by norm_num [instantMAX])
      (by norm_num [effectivePollInterval, defaultPollInterval])
      (by norm_num [effectivePollInterval, defaultPollInterval])⟩

/-- The LEB128 variable-length integer of the postcard wire format (the codec
`postcard::to_allocvec` uses): seven payload bits per byte, least significant
group first, high bit set on every byte but the last. -/
def varintEncode (n : Nat) : List Byte :=
  if h : n < 128 then [⟨n, by omega⟩]
  else ⟨n % 128 + 128, by omega⟩ :: varintEncode (n / 128)
termination_by n
decreasing_by exact Nat.div_lt_self (by omega) (by omega)

/-- Decoding of a postcard varint, returning the value and the remaining
bytes. -/
def varintDecode : List Byte → Option (Nat × List Byte)
  | [] => none
  | b :: rest =>
    if b.val < 128 then some (b.val, rest)
    else
      match varintDecode rest with
      | some (n, r) => some ((b.val - 128) + 128 * n, r)
      | none => none

/-- A postcard varint decodes back to the encoded value. -/
theorem varint_roundtrip (n : Nat) :
    ∀ rest, varintDecode (varintEncode n ++ rest) = some (n, rest) := by
  induction n using Nat.strong_induction_on with
  | _ n ih =>
    intro rest
    by_cases h : n < 128
    · rw [varintEncode, dif_pos h, List.singleton_append]
      simp [varintDecode, h]
    · rw [varintEncode, dif_neg h, List.cons_append]
      simp only [varintDecode]
      rw [if_neg (by simp)]
      rw [ih (n / 128) (Nat.div_lt_self (by omega) (by omega)) rest]
      simp only [Option.some.injEq, Prod.mk.injEq]
      refine ⟨?_, trivial⟩
      show n % 128 + 128 - 128 + 128 * (n / 128) = n
      omega

/-- Little-endian fixed-width byte encoding: postcard stores an `f64` as the
eight bytes of its IEEE-754 bit pattern, least significant first. -/
def encodeLE : Nat → Nat → List Byte
  | 0, _ => []
  | k + 1, n => ⟨n % 256, by omega⟩ :: encodeLE k (n / 256)

/-- Decoding of a little-endian fixed-width integer. -/
def decodeLE : Nat → List Byte → Option (Nat × List Byte)
  | 0, l => some (0, l)
  | _ + 1, [] => none
  | k + 1, b :: l =>
    match decodeLE k l with
    | some (n, r) => some (b.val + 256 * n, r)
    | none => none

/-- A fixed-width little-endian field decodes back to the encoded value when
the value fits the width. -/
theorem le_roundtrip :
    ∀ (k n : Nat), n < 256 ^ k →
    ∀ rest, decodeLE k (encodeLE k n ++ rest) = some (n, rest) := by
  intro k
  induction k with
  | zero =>
    intro n h rest
    have : n = 0 := by simpa using h
    simp [this, encodeLE, decodeLE]
  | succ k ih =>
    intro n h rest
    have hdiv : n / 256 < 256 ^ k := by
      rw [Nat.div_lt_iff_lt_mul (by norm_num)]
      calc n < 256 ^ (k + 1) := h
        _ = 256 ^ k * 256 := by rw [pow_succ]
    rw [show encodeLE (k + 1) n = ⟨n % 256, by omega⟩ :: encodeLE k (n / 256) from rfl]
    rw [List.cons_append]
    rw [show ∀ b l, decodeLE (k + 1) (b :: l) = (match decodeLE k l with
      | some (n, r) => some (b.val + 256 * n, r)
      | none => none) from fun b l => rfl]
    rw [ih (n / 256) hdiv rest]
    simp only [Option.some.injEq, Prod.mk.injEq]
    refine ⟨?_, trivial⟩
    show n % 256 + 256 * (n / 256) = n
    omega

/-- The postcard encoding of an `f64`, given as its 64-bit pattern. -/
def encodeF64 (bits : Nat) : List Byte := encodeLE 8 bits

/-- Decoding of a postcard `f64` bit pattern. -/
def decodeF64 (l : List Byte) : Option (Nat × List Byte) := decodeLE 8 l

/-- The postcard encoding of a Rust `String` (and of any serde byte/length
sequence): the length as a varint, then the bytes. -/
def encodeBytes (s : List Byte) : List Byte := varintEncode s.length ++ s

/-- Reading an exact number of bytes from the front of a buffer. -/
def readN : Nat → List Byte → Option (List Byte × List Byte)
  | 0, l => some ([], l)
  | _ + 1, [] => none
  | k + 1, b :: l =>
    match readN k l with
    | some (xs, r) => some (b :: xs, r)
    | none => none

/-- Decoding of a postcard `String`: read the varint length, then that many
bytes.  Postcard additionally checks the bytes are valid UTF-8; the bytes of
a serialized Rust `String` always are, so the check cannot fail on a
round trip and is not modelled. -/
def decodeBytes (l : List Byte) : Option (List Byte × List Byte) :=
  match varintDecode l with
  | some (n, r) => readN n r
  | none => none

/-- Reading back exactly the bytes that were put in front. -/
theorem readN_append :
    ∀ (xs rest : List Byte), readN xs.length (xs ++ rest) = some (xs, rest) := by
  intro xs
  induction xs with
  | nil => intro rest; rfl
  | cons b xs ih => intro rest; simp [readN, ih rest]

/-- A postcard string field decodes back to the encoded bytes. -/
theorem bytes_roundtrip (s : List Byte) (rest : List Byte) :
    decodeBytes (encodeBytes s ++ rest) = some (s, rest) := by
  unfold decodeBytes encodeBytes
  rw [List.append_assoc, varint_roundtrip s.length (s ++ rest)]
  exact readN_append s rest

/-- The postcard encoding of an `Option`: one byte 0 for `None`, one byte 1
followed by the payload for `Some`. -/
def encodeOption {α : Type} (enc : α → List Byte) : Option α → List Byte
  | none => [0]
  | some a => 1 :: enc a

/-- Decoding of a postcard `Option`; any discriminant byte other than 0 or 1
is rejected. -/
def decodeOption {α : Type} (dec : List Byte → Option (α × List Byte)) :
    List Byte → Option (Option α × List Byte)
  | [] => none
  | b :: l =>
    if b.val = 0 then some (none, l)
    else if b.val = 1 then
      match dec l with
      | some (a, r) => some (some a, r)
      | none => none
    else none

/-- A postcard `Option` field decodes back to the encoded value whenever the
payload codec round trips. -/
theorem option_roundtrip {α : Type} (enc : α → List Byte)
    (dec : List Byte → Option (α × List Byte))
    (hpayload : ∀ a rest, dec (enc a ++ rest) = some (a, rest)) :
    ∀ (o : Option α) (rest : List Byte),
    decodeOption dec (encodeOption enc o ++ rest) = some (o, rest) := by
  intro o rest
  cases o with
  | none => simp [encodeOption, decodeOption]
  | some a =>
    simp only [encodeOption, List.cons_append, decodeOption]
    rw [if_neg (by decide), if_pos (by decide)]
    rw [hpayload a rest]

/-- The postcard encoding of a `bool`: one byte, 0 or 1. -/
def encodeBool (b : Bool) : List Byte := [if b then 1 else 0]

/-- Decoding of a postcard `bool`; any byte other than 0 or 1 is rejected. -/
def decodeBool : List Byte → Option (Bool × List Byte)
  | [] => none
  | b :: l =>
    if b.val = 0 then some (false, l)
    else if b.val = 1 then some (true, l)
    else none

/-- A postcard `bool` field decodes back to the encoded value. -/
theorem bool_roundtrip (b : Bool) (rest : List Byte) :
    decodeBool (encodeBool b ++ rest) = some (b, rest) := by
  cases b <;> simp [encodeBool, decodeBool]

/-- The serde discriminant of each `ChannelType` variant, in declaration
order. -/
def channelTypeTag : ChannelType → Nat
  | .CurrentLoop => 0
  | .ValveVoltage => 1
  | .ValveCurrent => 2
  | .RailVoltage => 3
  | .RailCurrent => 4
  | .DifferentialSignal => 5
  | .Rtd => 6
  | .Tc => 7

/-- The postcard encoding of a `ChannelType`: its discriminant as a varint. -/
def encodeChannelType (ct : ChannelType) : List Byte :=
  varintEncode (channelTypeTag ct)

/-- Decoding of a postcard `ChannelType`; unknown discriminants are
rejected. -/
def decodeChannelType (l : List Byte) : Option (ChannelType × List Byte) :=
  match varintDecode l with
  | some (0, r) => some (.CurrentLoop, r)
  | some (1, r) => some (.ValveVoltage, r)
  | some (2, r) => some (.ValveCurrent, r)
  | some (3, r) => some (.RailVoltage, r)
  | some (4, r) => some (.RailCurrent, r)
  | some (5, r) => some (.DifferentialSignal, r)
  | some (6, r) => some (.Rtd, r)
  | some (7, r) => some (.Tc, r)
  | _ => none

/-- A postcard `ChannelType` field decodes back to the encoded variant. -/
theorem channelType_roundtrip (ct : ChannelType) (rest : List Byte) :
    decodeChannelType (encodeChannelType ct ++ rest) = some (ct, rest) := by
  cases ct <;>
    simp [encodeChannelType, channelTypeTag, decodeChannelType, varint_roundtrip]

/-- The serde discriminant of each `Computer` variant. -/
def computerTag : Computer → Nat
  | .Flight => 0
  | .Ground => 1

/-- The postcard encoding of a `Computer`: its discriminant as a varint. -/
def encodeComputer (c : Computer) : List Byte :=
  varintEncode (computerTag c)

/-- Decoding of a postcard `Computer`; unknown discriminants are rejected. -/
def decodeComputer (l : List Byte) : Option (Computer × List Byte) :=
  match varintDecode l with
  | some (0, r) => some (.Flight, r)
  | some (1, r) => some (.Ground, r)
  | _ => none

/-- A postcard `Computer` field decodes back to the encoded variant. -/
theorem computer_roundtrip (c : Computer) (rest : List Byte) :
    decodeComputer (encodeComputer c ++ rest) = some (c, rest) := by
  cases c <;> simp [encodeComputer, computerTag, decodeComputer, varint_roundtrip]

/-- The postcard serialization of a `NodeMapping`: its fields in declaration
order (serde derives serialize structs that way; postcard writes no framing
around them).  `calibrated_offset` carries `#[serde(default)]`, which affects
only self-describing formats; postcard always writes and reads the field. -/
def serializeNodeMapping (m : NodeMapping) : List Byte :=
  encodeBytes m.text_id ++ encodeBytes m.board_id ++
  encodeChannelType m.channel_type ++ varintEncode m.channel ++
  encodeComputer m.computer ++ encodeOption encodeF64 m.max ++
  encodeOption encodeF64 m.min ++ encodeF64 m.calibrated_offset ++
  encodeOption encodeF64 m.connected_threshold ++
  encodeOption encodeF64 m.powered_threshold ++
  encodeOption encodeBool m.normally_closed

/-- The postcard deserialization of a `NodeMapping`: its fields in
declaration order. -/
def deserializeNodeMapping (l : List Byte) : Option (NodeMapping × List Byte) :=
  (decodeBytes l).bind fun (text_id, l) =>
  (decodeBytes l).bind fun (board_id, l) =>
  (decodeChannelType l).bind fun (channel_type, l) =>
  (varintDecode l).bind fun (channel, l) =>
  (decodeComputer l).bind fun (computer, l) =>
  (decodeOption decodeF64 l).bind fun (maxv, l) =>
  (decodeOption decodeF64 l).bind fun (minv, l) =>
  (decodeF64 l).bind fun (calibrated_offset, l) =>
  (decodeOption decodeF64 l).bind fun (connected_threshold, l) =>
  (decodeOption decodeF64 l).bind fun (powered_threshold, l) =>
  (decodeOption decodeBool l).bind fun (normally_closed, l) =>
  some (⟨text_id, board_id, channel_type, channel, computer, maxv, minv,
    calibrated_offset, connected_threshold, powered_threshold,
    normally_closed⟩, l)

/-- Well-formedness of the machine integers carried by a `NodeMapping` model:
`channel` fits a `u32` and every `f64` bit pattern fits 64 bits — true of
every value the Rust struct can hold. -/
def NodeMapping.wfb (m : NodeMapping) : Bool :=
  decide (m.channel < 2 ^ 32) && decide (m.calibrated_offset < 2 ^ 64) &&
  m.max.all (fun x => decide (x < 2 ^ 64)) &&
  m.min.all (fun x => decide (x < 2 ^ 64)) &&
  m.connected_threshold.all (fun x => decide (x < 2 ^ 64)) &&
  m.powered_threshold.all (fun x => decide (x < 2 ^ 64))

/-- An `f64` bit pattern fits the `decodeLE 8` bound when it fits 64 bits. -/
theorem f64_roundtrip (bits : Nat) (h : bits < 2 ^ 64) (rest : List Byte) :
    decodeF64 (encodeF64 bits ++ rest) = some (bits, rest) := by
  unfold decodeF64 encodeF64
  exact le_roundtrip 8 bits (by norm_num at h ⊢; omega) rest

/-- An optional `f64` field round trips when its bits fit 64 bits. -/
theorem optionF64_roundtrip (o : Option Nat)
    (h : o.all (fun x => decide (x < 2 ^ 64)) = true) (rest : List Byte) :
    decodeOption decodeF64 (encodeOption encodeF64 o ++ rest) = some (o, rest) := by
  cases o with
  | none => simp [encodeOption, decodeOption]
  | some a =>
    have ha : a < 2 ^ 64 := by simpa [Option.all] using h
    simp only [encodeOption, List.cons_append, decodeOption]
    rw [if_neg (by decide), if_pos (by decide)]
    rw [f64_roundtrip a ha rest]

/-- C6: serializing any well-formed `NodeMapping` — in particular one whose
optional fields `max`, `min`, `connected_threshold`, `powered_threshold` and
`normally_closed` are all `None` — through the postcard wire codec and
deserializing the result yields the original mapping, equal in every field,
with the trailing bytes untouched. -/
theorem c6_nodemapping_roundtrip (m : NodeMapping) (rest : List Byte)
    (h : m.wfb = true) :
    deserializeNodeMapping (serializeNodeMapping m ++ rest) = some (m, rest) := by
  unfold NodeMapping.wfb at h
  simp only [Bool.and_eq_true, decide_eq_true_eq] at h
  obtain ⟨⟨⟨⟨⟨hch, hco⟩, hmax⟩, hmin⟩, hcon⟩, hpow⟩ := h
  simp only [serializeNodeMapping, deserializeNodeMapping, List.append_assoc,
    bytes_roundtrip, channelType_roundtrip, varint_roundtrip, computer_roundtrip,
    optionF64_roundtrip m.max hmax, optionF64_roundtrip m.min hmin,
    f64_roundtrip m.calibrated_offset hco,
    optionF64_roundtrip m.connected_threshold hcon,
    optionF64_roundtrip m.powered_threshold hpow,
    option_roundtrip encodeBool decodeBool bool_roundtrip, Option.some_bind]

/-- C6, witness: the concrete mapping `mapping0` (whose `max`, `min`,
`connected_threshold` and `powered_threshold` are `None`) round trips, as
does its variant with `normally_closed` also `None`. -/
theorem c6_nodemapping_roundtrip_witness :
    mapping0.wfb = true ∧
    deserializeNodeMapping (serializeNodeMapping mapping0 ++ []) =
      some (mapping0, []) ∧
    ({ mapping0 with normally_closed := none } : NodeMapping).wfb = true ∧
    deserializeNodeMapping
      (serializeNodeMapping { mapping0 with normally_closed := none } ++ []) =
      some ({ mapping0 with normally_closed := none }, []) :=
  ⟨by decide, c6_nodemapping_roundtrip mapping0 [] (by decide),
    by decide,
    c6_nodemapping_roundtrip { mapping0 with normally_closed := none } [] (by decide)⟩

end common
